import Mathlib

/-!
Verification of the device-configuration protocol of
`trackball-config-pyqt6.py` (a PyQt6 trackball configurator).

The program exchanges one fixed HID feature report with the device:

* `save_config_to_device` (lines 466-521) packs the widget state with
  `struct.pack("<BBb2b2bBBbb4b4b", ...)` into 19 bytes, appends
  `binascii.crc32(data[1:])` little-endian, and sends the 23-byte buffer.
* `load_config_from_device` (lines 325-464) reads `CONFIG_SIZE + 1 = 23`
  bytes, zips them with a list of 20 field names, and sets each widget from
  its byte through string-keyed lookup tables (`load_ball`, `load_button`,
  `load_ring`); CPI bytes go to the sliders via `setValue`.

The shallow embedding below models the configuration state as the tuple of
widget values (each dropdown holds one entry of its option table, each
slider holds its integer value), the encoder as the `struct.pack` +
`binascii.crc32` pipeline, and the decoder as the sequence of dictionary
lookups the loader performs, in the exact source order, with Python
exceptions (`struct.error`, `KeyError`) modelled as `Except` errors.
Bytes are `Nat` values; the signed `b` fields are packed by two's
complement (`i % 256`), exactly as `struct.pack` does.
-/

set_option maxRecDepth 20000

/-- Source line 31: vendor id of the device (used only for device selection). -/
def VID : Nat := 0xCAFE

/-- Source line 32: product id of the device (used only for device selection). -/
def PID : Nat := 0xBAFA

/-- Source line 33: `CONFIG_SIZE = 22`; the loader reads `CONFIG_SIZE + 1` bytes. -/
def CONFIG_SIZE : Nat := 22

/-- Source line 34: `REPORT_ID = 3`, the first packed byte. -/
def REPORT_ID : Nat := 3

/-- Source line 35: `CONFIG_VERSION = 1`, the second packed byte. -/
def CONFIG_VERSION : Nat := 1

/-- The nine entries of `BALL_FUNCTIONS` (source lines 38-48).  Each dropdown
built from that table holds exactly one of these values. -/
inductive BallFunction where
  | none
  | cursorX
  | cursorY
  | vScroll
  | hScroll
  | cursorXInv
  | cursorYInv
  | vScrollInv
  | hScrollInv
deriving DecidableEq, Repr

/-- The data column of `BALL_FUNCTIONS` (source lines 38-48), parsed by
`int(...)` as in `save_config_to_device` lines 474-477. -/
def ballCode : BallFunction → Int
  | .none => 0
  | .cursorX => 1
  | .cursorY => 2
  | .vScroll => 3
  | .hScroll => 4
  | .cursorXInv => -1
  | .cursorYInv => -2
  | .vScrollInv => -3
  | .hScrollInv => -4

/-- The eleven entries of `BUTTON_FUNCTIONS` (source lines 50-62). -/
inductive ButtonFunction where
  | none
  | button1
  | button2
  | button3
  | button4
  | button5
  | button6
  | button7
  | button8
  | clickDrag
  | shift
deriving DecidableEq, Repr

/-- The data column of `BUTTON_FUNCTIONS` (source lines 50-62). -/
def buttonCode : ButtonFunction → Int
  | .none => 0
  | .button1 => 1
  | .button2 => 2
  | .button3 => 3
  | .button4 => 4
  | .button5 => 5
  | .button6 => 6
  | .button7 => 7
  | .button8 => 8
  | .clickDrag => 9
  | .shift => 10

/-- The five entries of `RING_FUNCTIONS` (source lines 64-70). -/
inductive RingFunction where
  | none
  | vScroll
  | hScroll
  | vScrollInv
  | hScrollInv
deriving DecidableEq, Repr

/-- The data column of `RING_FUNCTIONS` (source lines 64-70). -/
def ringCode : RingFunction → Int
  | .none => 0
  | .vScroll => 1
  | .hScroll => 2
  | .vScrollInv => -1
  | .hScrollInv => -2

/-- Python exceptions raised by the protocol code: `struct.error` from
`struct.pack` on an out-of-range field, and `KeyError` from a dictionary
lookup (`val[name]` on a missing name, or a lookup table on an unmapped
wire code; the carried string is the missing key, exactly what Python
puts in the `KeyError`). -/
inductive ProtoError where
  | structError (msg : String)
  | keyError (key : String)
deriving DecidableEq, Repr

/-- Equality of `Except` results is decidable when both components are;
needed to evaluate the concrete scenarios by `decide`. -/
instance {ε α : Type} [DecidableEq ε] [DecidableEq α] : DecidableEq (Except ε α) := fun x y =>
  match x, y with
  | .error a, .error b =>
    if h : a = b then .isTrue (by rw [h])
    else .isFalse (fun hh => h (Except.error.inj hh))
  | .ok a, .ok b =>
    if h : a = b then .isTrue (by rw [h])
    else .isFalse (fun hh => h (Except.ok.inj hh))
  | .error _, .ok _ => .isFalse (fun hh => Except.noConfusion hh)
  | .ok _, .error _ => .isFalse (fun hh => Except.noConfusion hh)

/-- The configurable state of the window: one value per dropdown
(lines 131-145) and per CPI slider (lines 147-148).  This is the record
that `save_config_to_device` reads and `load_config_from_device` writes.
The window holds no version field: `save_config_to_device` always packs the
constant `CONFIG_VERSION` and the loader never reads the version byte. -/
structure ConfigRecord where
  ball_x : BallFunction
  ball_x_shifted : BallFunction
  ball_y : BallFunction
  ball_y_shifted : BallFunction
  ring : RingFunction
  ring_shifted : RingFunction
  button1 : ButtonFunction
  button2 : ButtonFunction
  button3 : ButtonFunction
  button4 : ButtonFunction
  button1_shifted : ButtonFunction
  button2_shifted : ButtonFunction
  button3_shifted : ButtonFunction
  button4_shifted : ButtonFunction
  ball_cpi : Nat
  ball_cpi_shifted : Nat
deriving DecidableEq, Repr

/-- The freshly started window: `make_dropdown` selects index 0 (the
"None" entry, line 86) and `make_slider` sets value 1 (line 98). -/
def default_record : ConfigRecord where
  ball_x := .none
  ball_x_shifted := .none
  ball_y := .none
  ball_y_shifted := .none
  ring := .none
  ring_shifted := .none
  button1 := .none
  button2 := .none
  button3 := .none
  button4 := .none
  button1_shifted := .none
  button2_shifted := .none
  button3_shifted := .none
  button4_shifted := .none
  ball_cpi := 1
  ball_cpi_shifted := 1

/-- A record the GUI can actually hold: the sliders are range-limited to
1..120 (`make_slider`, line 97); the dropdowns are closed by type. -/
def ValidRecord (r : ConfigRecord) : Prop :=
  1 ≤ r.ball_cpi ∧ r.ball_cpi ≤ 120 ∧ 1 ≤ r.ball_cpi_shifted ∧ r.ball_cpi_shifted ≤ 120

/-- One shift-and-conditional-xor round of the CRC-32 bit loop
(reflected polynomial 0xEDB88320). -/
def crc32Round (c : Nat) : Nat :=
  if c % 2 = 1 then (c / 2) ^^^ 0xEDB88320 else c / 2

/-- Fold one byte into the running CRC: xor it into the low bits, then run
eight rounds. -/
def crc32UpdateByte (c b : Nat) : Nat :=
  (List.range 8).foldl (fun acc _ => crc32Round acc) (c ^^^ b)

/-- `binascii.crc32` (source line 514): the standard CRC-32 / ISO-HDLC
checksum — reflected polynomial 0xEDB88320, initial value 0xFFFFFFFF,
final xor 0xFFFFFFFF.  Checked against the reference value
`crc32 "123456789" = 0xCBF43926` below. -/
def crc32 (bs : List Nat) : Nat :=
  (bs.foldl crc32UpdateByte 0xFFFFFFFF) ^^^ 0xFFFFFFFF

/-- `struct.pack("<L", n)` (source line 515): the four little-endian bytes
of a 32-bit value (`binascii.crc32` always returns one). -/
def le32 (n : Nat) : List Nat :=
  [n % 256, n / 256 % 256, n / 65536 % 256, n / 16777216 % 256]

/-- `struct.pack` format character `B`: an unsigned byte, rejected with
`struct.error` outside 0..255. -/
def packB (n : Nat) : Except ProtoError Nat :=
  if n ≤ 255 then .ok n
  else .error (.structError "ubyte format requires 0 <= number <= 255")

/-- `struct.pack` format character `b`: a signed byte, rejected with
`struct.error` outside -128..127, stored as two's complement. -/
def packb (i : Int) : Except ProtoError Nat :=
  if -128 ≤ i ∧ i ≤ 127 then .ok (i % 256).toNat
  else .error (.structError "byte format requires -128 <= number <= 127")

/-- `struct.pack("<BBb2b2bBBbb4b4b", ...)` with the nineteen arguments of
source lines 492-513, in source order: report id, version, `command = 0`
(line 473), the four ball-axis codes, the two CPI slider values, the two
ring codes, buttons 1-4, then shifted buttons 1-4. -/
def packRecord (r : ConfigRecord) : Except ProtoError (List Nat) :=
  (packB REPORT_ID).bind fun b0 =>
  (packB CONFIG_VERSION).bind fun b1 =>
  (packb 0).bind fun b2 =>
  (packb (ballCode r.ball_x)).bind fun b3 =>
  (packb (ballCode r.ball_y)).bind fun b4 =>
  (packb (ballCode r.ball_x_shifted)).bind fun b5 =>
  (packb (ballCode r.ball_y_shifted)).bind fun b6 =>
  (packB r.ball_cpi).bind fun b7 =>
  (packB r.ball_cpi_shifted).bind fun b8 =>
  (packb (ringCode r.ring)).bind fun b9 =>
  (packb (ringCode r.ring_shifted)).bind fun b10 =>
  (packb (buttonCode r.button1)).bind fun b11 =>
  (packb (buttonCode r.button2)).bind fun b12 =>
  (packb (buttonCode r.button3)).bind fun b13 =>
  (packb (buttonCode r.button4)).bind fun b14 =>
  (packb (buttonCode r.button1_shifted)).bind fun b15 =>
  (packb (buttonCode r.button2_shifted)).bind fun b16 =>
  (packb (buttonCode r.button3_shifted)).bind fun b17 =>
  (packb (buttonCode r.button4_shifted)).bind fun b18 =>
  Except.ok [b0, b1, b2, b3, b4, b5, b6, b7, b8, b9,
             b10, b11, b12, b13, b14, b15, b16, b17, b18]

/-- The encoder, `save_config_to_device` lines 492-516: pack the nineteen
field bytes, append `binascii.crc32(data[1:])` little-endian.  The
resulting buffer is what `dev.send_feature_report` receives. -/
def save_config_to_device (r : ConfigRecord) : Except ProtoError (List Nat) :=
  (packRecord r).bind fun data =>
  Except.ok (data ++ le32 (crc32 (data.drop 1)))

/-- `val[name]` on `val = dict(zip(data_list, data))` (source lines 338-361):
byte `i` of the report under the `i`-th name of `data_list`; a buffer too
short to reach index `i` leaves the name out of the dictionary and the
access raises `KeyError(name)`. -/
def byteAt (data : List Nat) (i : Nat) (name : String) : Except ProtoError Nat :=
  match data.get? i with
  | some b => .ok b
  | Option.none => .error (.keyError name)

/-- The `load_ball` dictionary (source lines 398-408) composed with
`setCurrentText` / `currentData`: the wire byte (as its decimal string)
selects a label, and every label names exactly one `BALL_FUNCTIONS` entry;
a byte outside the table raises `KeyError(str(byte))`. -/
def load_ball (b : Nat) : Except ProtoError BallFunction :=
  match b with
  | 0 => .ok .none
  | 1 => .ok .cursorX
  | 2 => .ok .cursorY
  | 3 => .ok .vScroll
  | 4 => .ok .hScroll
  | 255 => .ok .cursorXInv
  | 254 => .ok .cursorYInv
  | 253 => .ok .vScrollInv
  | 252 => .ok .hScrollInv
  | n => .error (.keyError (toString n))

/-- The `load_button` dictionary (source lines 409-421), as `load_ball`. -/
def load_button (b : Nat) : Except ProtoError ButtonFunction :=
  match b with
  | 0 => .ok .none
  | 1 => .ok .button1
  | 2 => .ok .button2
  | 3 => .ok .button3
  | 4 => .ok .button4
  | 5 => .ok .button5
  | 6 => .ok .button6
  | 7 => .ok .button7
  | 8 => .ok .button8
  | 9 => .ok .clickDrag
  | 10 => .ok .shift
  | n => .error (.keyError (toString n))

/-- The `load_ring` dictionary (source lines 423-429), as `load_ball`. -/
def load_ring (b : Nat) : Except ProtoError RingFunction :=
  match b with
  | 0 => .ok .none
  | 1 => .ok .vScroll
  | 2 => .ok .hScroll
  | 255 => .ok .vScrollInv
  | 254 => .ok .hScrollInv
  | n => .error (.keyError (toString n))

/-- `QSlider.setValue` on the CPI sliders (source lines 462-463): Qt clamps
the value to the slider range 1..120 set by `make_slider` (line 97). -/
def slider_setValue (v : Nat) : Nat :=
  if v < 1 then 1 else if 120 < v then 120 else v

/-- The decoder, `load_config_from_device` lines 336-463: each widget is set
from its byte of the report, in the exact source order of lines 445-463.
Note line 447: the ball-Y dropdown is set from `val["ball_x"]` (byte 3),
not from the ball-Y byte 4, and neither the version byte, the command
byte, nor the trailing CRC bytes are ever read. -/
def load_config_from_device (data : List Nat) : Except ProtoError ConfigRecord :=
  (byteAt data 3 "ball_x").bind fun bx =>
  (load_ball bx).bind fun ball_x =>
  (byteAt data 5 "ball_x_shifted").bind fun bxs =>
  (load_ball bxs).bind fun ball_x_shifted =>
  (byteAt data 3 "ball_x").bind fun bxAgain =>
  (load_ball bxAgain).bind fun ball_y =>
  (byteAt data 6 "ball_y_shifted").bind fun bys =>
  (load_ball bys).bind fun ball_y_shifted =>
  (byteAt data 9 "ring").bind fun brg =>
  (load_ring brg).bind fun ring =>
  (byteAt data 10 "ring_shifted").bind fun brgs =>
  (load_ring brgs).bind fun ring_shifted =>
  (byteAt data 11 "button1").bind fun bb1 =>
  (load_button bb1).bind fun btn1 =>
  (byteAt data 15 "button1_shifted").bind fun bb1s =>
  (load_button bb1s).bind fun btn1s =>
  (byteAt data 12 "button2").bind fun bb2 =>
  (load_button bb2).bind fun btn2 =>
  (byteAt data 16 "button2_shifted").bind fun bb2s =>
  (load_button bb2s).bind fun btn2s =>
  (byteAt data 13 "button3").bind fun bb3 =>
  (load_button bb3).bind fun btn3 =>
  (byteAt data 17 "button3_shifted").bind fun bb3s =>
  (load_button bb3s).bind fun btn3s =>
  (byteAt data 14 "button4").bind fun bb4 =>
  (load_button bb4).bind fun btn4 =>
  (byteAt data 18 "button4_shifted").bind fun bb4s =>
  (load_button bb4s).bind fun btn4s =>
  (byteAt data 7 "ball_cpi").bind fun bcpi =>
  (byteAt data 8 "ball_cpi_shifted").bind fun bcpis =>
  Except.ok
    { ball_x := ball_x
      ball_x_shifted := ball_x_shifted
      ball_y := ball_y
      ball_y_shifted := ball_y_shifted
      ring := ring
      ring_shifted := ring_shifted
      button1 := btn1
      button2 := btn2
      button3 := btn3
      button4 := btn4
      button1_shifted := btn1s
      button2_shifted := btn2s
      button3_shifted := btn3s
      button4_shifted := btn4s
      ball_cpi := slider_setValue bcpi
      ball_cpi_shifted := slider_setValue bcpis }

/-- The provable normal form of a successful `packRecord`: byte values in
wire order.  The inverted codes land on their two's-complement bytes
(255, 254, 253, 252). -/
def ballWire : BallFunction → Nat
  | .none => 0
  | .cursorX => 1
  | .cursorY => 2
  | .vScroll => 3
  | .hScroll => 4
  | .cursorXInv => 255
  | .cursorYInv => 254
  | .vScrollInv => 253
  | .hScrollInv => 252

/-- Wire bytes of the ring codes. -/
def ringWire : RingFunction → Nat
  | .none => 0
  | .vScroll => 1
  | .hScroll => 2
  | .vScrollInv => 255
  | .hScrollInv => 254

/-- Wire bytes of the button codes (all non-negative). -/
def buttonWire : ButtonFunction → Nat
  | .none => 0
  | .button1 => 1
  | .button2 => 2
  | .button3 => 3
  | .button4 => 4
  | .button5 => 5
  | .button6 => 6
  | .button7 => 7
  | .button8 => 8
  | .clickDrag => 9
  | .shift => 10

/-- The nineteen pre-checksum bytes a successful `packRecord` returns. -/
def packedBytes (r : ConfigRecord) : List Nat :=
  [3, 1, 0,
   ballWire r.ball_x, ballWire r.ball_y,
   ballWire r.ball_x_shifted, ballWire r.ball_y_shifted,
   r.ball_cpi, r.ball_cpi_shifted,
   ringWire r.ring, ringWire r.ring_shifted,
   buttonWire r.button1, buttonWire r.button2,
   buttonWire r.button3, buttonWire r.button4,
   buttonWire r.button1_shifted, buttonWire r.button2_shifted,
   buttonWire r.button3_shifted, buttonWire r.button4_shifted]

/-- The eighteen checksum-input bytes of the default window state:
version byte through last shifted-button byte. -/
def defaultPayload : List Nat := [1, 0, 0, 0, 0, 0, 1, 1, 0, 0, 0, 0, 0, 0, 0, 0, 0, 0]

/-- The buffer `save_config_to_device` sends for the default window state:
nineteen packed bytes, then the CRC little-endian. -/
def defaultEncodedBuf : List Nat :=
  [3, 1, 0, 0, 0, 0, 0, 1, 1, 0, 0, 0, 0, 0, 0, 0, 0, 0, 0] ++ le32 (crc32 defaultPayload)

/-- Round-trip probe: default state except the ball-Y dropdown on Cursor X. -/
def c1_record : ConfigRecord := { default_record with ball_y := .cursorX }

/-- Encoding of `c1_record`: ball-Y byte (offset 4) is 1. -/
def c1_buf : List Nat :=
  [3, 1, 0, 0, 1, 0, 0, 1, 1, 0, 0, 0, 0, 0, 0, 0, 0, 0, 0] ++
    le32 (crc32 [1, 0, 0, 1, 0, 0, 1, 1, 0, 0, 0, 0, 0, 0, 0, 0, 0, 0])

/-- The valid default buffer with one bit flipped inside the payload region:
bit 0 of byte 2 (the command byte), so the stored CRC no longer matches. -/
def c3_corrupt : List Nat := defaultEncodedBuf.set 2 1

/-- Checksum input for a buffer whose version byte is 2. -/
def c4_payload : List Nat := [2, 0, 0, 0, 0, 0, 1, 1, 0, 0, 0, 0, 0, 0, 0, 0, 0, 0]

/-- A buffer identical to the valid default buffer except version byte 2,
with the trailing checksum recomputed to match the altered payload. -/
def c4_buf : List Nat :=
  [3, 2, 0, 0, 0, 0, 0, 1, 1, 0, 0, 0, 0, 0, 0, 0, 0, 0, 0] ++ le32 (crc32 c4_payload)

/-- Checksum input for the buffer whose button1 byte is 99. -/
def c5_payload : List Nat := [1, 0, 0, 0, 0, 0, 1, 1, 0, 0, 99, 0, 0, 0, 0, 0, 0, 0]

/-- A checksum-consistent buffer whose button1 byte (offset 11) is the
unmapped wire code 99; every other enumerated byte is a defined code. -/
def c5_buf : List Nat :=
  [3, 1, 0, 0, 0, 0, 0, 1, 1, 0, 0, 99, 0, 0, 0, 0, 0, 0, 0] ++ le32 (crc32 c5_payload)

/-- A second buffer with byte 11 = 99, used to instantiate the universally
quantified part of the amended claim C5. -/
def c5_short : List Nat := [0, 0, 0, 0, 0, 0, 0, 0, 0, 0, 0, 99]

/-- Buffer with ball-X byte 0 (None) and ball-Y byte 2 (Cursor Y). -/
def c6_bufA : List Nat :=
  [3, 1, 0, 0, 2, 0, 0, 1, 1, 0, 0, 0, 0, 0, 0, 0, 0, 0, 0, 0, 0, 0, 0]

/-- Same as `c6_bufA` except the ball-X byte (offset 3) is 1 (Cursor X);
the ball-Y byte (offset 4) is 2 in both. -/
def c6_bufB : List Nat :=
  [3, 1, 0, 1, 2, 0, 0, 1, 1, 0, 0, 0, 0, 0, 0, 0, 0, 0, 0, 0, 0, 0, 0]

/-- Default state with the ball-CPI slider value replaced by `v`. -/
def c7_rec (v : Nat) : ConfigRecord := { default_record with ball_cpi := v }

/-- The buffer `save_config_to_device` produces for `c7_rec v` (byte 7 is
the raw CPI value `v`). -/
def c7_buf (v : Nat) : List Nat :=
  [3, 1, 0, 0, 0, 0, 0, v, 1, 0, 0, 0, 0, 0, 0, 0, 0, 0, 0] ++
    le32 (crc32 [1, 0, 0, 0, 0, 0, v, 1, 0, 0, 0, 0, 0, 0, 0, 0, 0, 0])

/-- Default state with ball X on Cursor X and ball Y on Cursor Y (inverted). -/
def c9_record : ConfigRecord :=
  { default_record with ball_x := .cursorX, ball_y := .cursorYInv }

/-- Encoding of `c9_record`: axis bytes 1 and 254 (0xFE) at offsets 3, 4. -/
def c9_save_buf : List Nat :=
  [3, 1, 0, 1, 254, 0, 0, 1, 1, 0, 0, 0, 0, 0, 0, 0, 0, 0, 0] ++
    le32 (crc32 [1, 0, 1, 254, 0, 0, 1, 1, 0, 0, 0, 0, 0, 0, 0, 0, 0, 0])

/-- A checksum-consistent buffer carrying wire byte 0xFE in a ball-axis
position (the ball-X byte, offset 3, which the loader really reads). -/
def c9_load_buf : List Nat :=
  [3, 1, 0, 254, 0, 0, 0, 1, 1, 0, 0, 0, 0, 0, 0, 0, 0, 0, 0] ++
    le32 (crc32 [1, 0, 254, 0, 0, 0, 1, 1, 0, 0, 0, 0, 0, 0, 0, 0, 0, 0])

/-- Binding an `Except.ok` just applies the continuation. -/
theorem except_ok_bind {ε α β : Type} (a : α) (f : α → Except ε β) :
    (Except.ok a : Except ε α).bind f = f a := rfl

/-- Binding an `Except.error` short-circuits. -/
theorem except_error_bind {ε α β : Type} (err : ε) (f : α → Except ε β) :
    (Except.error err : Except ε α).bind f = Except.error err := rfl

/-- Inversion: a successful bind comes from a successful first step. -/
theorem except_bind_ok {ε α β : Type} {x : Except ε α} {f : α → Except ε β} {b : β}
    (h : x.bind f = Except.ok b) : ∃ a, x = Except.ok a ∧ f a = Except.ok b := by
  cases x with
  | error e => exact Except.noConfusion ((except_error_bind e f) ▸ h)
  | ok a => exact ⟨a, rfl, h⟩

/-- Packing the report id always succeeds with byte 3. -/
theorem packB_REPORT_ID : packB REPORT_ID = Except.ok 3 := by decide

/-- Packing the version always succeeds with byte 1. -/
theorem packB_CONFIG_VERSION : packB CONFIG_VERSION = Except.ok 1 := by decide

/-- Packing the command always succeeds with byte 0. -/
theorem packb_zero : packb 0 = Except.ok 0 := by decide

/-- Every ball-axis code is in the signed-byte range and packs to its
two's-complement wire byte. -/
theorem packb_ballCode (f : BallFunction) :
    packb (ballCode f) = Except.ok (ballWire f) := by
  cases f <;> decide

/-- Every ring code packs to its two's-complement wire byte. -/
theorem packb_ringCode (f : RingFunction) :
    packb (ringCode f) = Except.ok (ringWire f) := by
  cases f <;> decide

/-- Every button code packs to its wire byte. -/
theorem packb_buttonCode (f : ButtonFunction) :
    packb (buttonCode f) = Except.ok (buttonWire f) := by
  cases f <;> decide

/-- Shape of a successful `packRecord`: exactly the nineteen bytes of
`packedBytes`. -/
theorem packRecord_ok_shape {r : ConfigRecord} {bs : List Nat}
    (h : packRecord r = Except.ok bs) : bs = packedBytes r := by
  unfold packRecord at h
  simp only [packB_REPORT_ID, packB_CONFIG_VERSION, packb_zero, packb_ballCode,
    packb_ringCode, packb_buttonCode, except_ok_bind] at h
  obtain ⟨a7, h7, h⟩ := except_bind_ok h
  obtain ⟨a8, h8, h⟩ := except_bind_ok h
  unfold packB at h7 h8
  split at h7
  · split at h8
    · injection h7 with h7
      injection h8 with h8
      subst h7
      subst h8
      injection h with h
      exact h.symm
    · exact Except.noConfusion h8
  · exact Except.noConfusion h7

/-- Shape of a successful `save_config_to_device`: the packed bytes
followed by the little-endian CRC of the packed bytes after the report id. -/
theorem save_ok_shape {r : ConfigRecord} {buf : List Nat}
    (h : save_config_to_device r = Except.ok buf) :
    buf = packedBytes r ++ le32 (crc32 ((packedBytes r).drop 1)) := by
  unfold save_config_to_device at h
  obtain ⟨bs, hbs, h2⟩ := except_bind_ok h
  have hsh := packRecord_ok_shape hbs
  subst hsh
  injection h2 with h2
  exact h2.symm

/-- If the loader returns a record, the button1 byte existed and mapped
through the `load_button` table successfully. -/
theorem load_ok_button1_maps {data : List Nat} {r : ConfigRecord}
    (h : load_config_from_device data = Except.ok r) :
    ∃ b f, byteAt data 11 "button1" = Except.ok b ∧ load_button b = Except.ok f := by
  unfold load_config_from_device at h
  obtain ⟨b3, _, h⟩ := except_bind_ok h
  obtain ⟨fx, _, h⟩ := except_bind_ok h
  obtain ⟨b5, _, h⟩ := except_bind_ok h
  obtain ⟨fxs, _, h⟩ := except_bind_ok h
  obtain ⟨b3y, _, h⟩ := except_bind_ok h
  obtain ⟨fy, _, h⟩ := except_bind_ok h
  obtain ⟨b6, _, h⟩ := except_bind_ok h
  obtain ⟨fys, _, h⟩ := except_bind_ok h
  obtain ⟨b9, _, h⟩ := except_bind_ok h
  obtain ⟨fr, _, h⟩ := except_bind_ok h
  obtain ⟨b10, _, h⟩ := except_bind_ok h
  obtain ⟨frs, _, h⟩ := except_bind_ok h
  obtain ⟨b11, h11, h⟩ := except_bind_ok h
  obtain ⟨f1, hf1, _⟩ := except_bind_ok h
  exact ⟨b11, f1, h11, hf1⟩

/-- C1 (code_bug evidence): the round-trip fails on the source code.  For
the valid record `c1_record` (default state except ball Y on Cursor X),
encoding succeeds, but decoding the encoded buffer returns the default
record: the ball-Y dropdown is set from the ball-X byte (source line 447
reads `val["ball_x"]`), so the Cursor X assignment on ball Y is lost. -/
theorem c1_roundtrip_violated :
    save_config_to_device c1_record = Except.ok c1_buf ∧
    load_config_from_device c1_buf = Except.ok default_record ∧
    default_record ≠ c1_record := by decide

/-- C2: for every record the encoder accepts, the trailing four bytes of
the produced buffer are the little-endian CRC-32 (reflected polynomial
0xEDB88320) of exactly bytes 1 through 18 of the buffer — the version
byte through the last shifted-button byte, excluding the report id and
the checksum itself. -/
theorem c2_checksum_range (r : ConfigRecord) (buf : List Nat)
    (h : save_config_to_device r = Except.ok buf) :
    buf.drop 19 = le32 (crc32 ((buf.take 19).drop 1)) := by
  rw [save_ok_shape h]
  rfl

/-- Witness for C2 at the default record. -/
theorem c2_checksum_range_witness :
    defaultEncodedBuf.drop 19 = le32 (crc32 ((defaultEncodedBuf.take 19).drop 1)) :=
  c2_checksum_range default_record defaultEncodedBuf (by decide)

/-- C3 (code_bug evidence): the loader has no checksum gate.  The buffer
`c3_corrupt` is the valid default buffer with one bit flipped in the
payload region (bit 0 of byte 2, the command byte); its stored CRC no
longer matches its payload, yet decode succeeds and returns the default
record instead of failing with a checksum error. -/
theorem c3_no_checksum_gate :
    save_config_to_device default_record = Except.ok defaultEncodedBuf ∧
    crc32 ((c3_corrupt.drop 1).take 18) ≠ crc32 defaultPayload ∧
    load_config_from_device c3_corrupt = Except.ok default_record := by decide

/-- C4 (code_bug evidence): the loader has no version gate.  `c4_buf` is
identical to the valid default buffer except its version byte is 2, with
the trailing checksum recomputed to match; decode never reads the version
byte and succeeds instead of failing with a version error. -/
theorem c4_no_version_gate :
    c4_buf.get? 1 = some 2 ∧
    c4_buf.drop 19 = le32 (crc32 ((c4_buf.take 19).drop 1)) ∧
    load_config_from_device c4_buf = Except.ok default_record := by decide

/-- C5 counterexample: on the buffer whose button1 byte is the unmapped
code 99, decode fails with `KeyError("99")` — the error carries only the
string of the undefined wire value, not the field name "button1" the
claim requires the error to identify. -/
theorem c5_counterexample :
    load_config_from_device c5_buf = Except.error (ProtoError.keyError "99") ∧
    load_config_from_device c5_buf ≠ Except.error (ProtoError.keyError "button1") := by decide

/-- C5 amended: decoding any buffer whose button1 byte (offset 11) is 99
fails — never silently mapping the undefined code to "None" — and on a
buffer whose other enumerated bytes are all defined, the error is the
lookup failure `KeyError("99")`, identifying the value but not the field. -/
theorem c5_amended_unknown_code_fails :
    (∀ data : List Nat, data.get? 11 = some 99 →
      ∃ e, load_config_from_device data = Except.error e) ∧
    load_config_from_device c5_buf = Except.error (ProtoError.keyError "99") := by
  constructor
  · intro data h99
    cases hres : load_config_from_device data with
    | error e => exact ⟨e, rfl⟩
    | ok r =>
      obtain ⟨b, f, hb, hf⟩ := load_ok_button1_maps hres
      unfold byteAt at hb
      rw [h99] at hb
      injection hb with hb
      subst hb
      rw [show load_button 99 = Except.error (ProtoError.keyError (toString 99)) from rfl] at hf
      exact Except.noConfusion hf
  · decide

/-- Witness for the universally quantified part of the amended C5, at a
short twelve-byte buffer ending in 99. -/
theorem c5_amended_witness :
    ∃ e, load_config_from_device c5_short = Except.error e :=
  c5_amended_unknown_code_fails.1 c5_short (by decide)

/-- C6 (code_bug evidence): decoding is not positional for ball Y.  The
buffers `c6_bufA` and `c6_bufB` differ only in the ball-X byte (offset 3)
and agree on the ball-Y byte (offset 4, value 2 = Cursor Y), yet their
decoded ball-Y fields differ — each follows the ball-X byte, and neither
is Cursor Y. -/
theorem c6_positional_decoding_violated :
    c6_bufA.set 3 1 = c6_bufB ∧
    c6_bufA.get? 4 = some 2 ∧
    c6_bufB.get? 4 = some 2 ∧
    (load_config_from_device c6_bufA).map ConfigRecord.ball_y
      = Except.ok BallFunction.none ∧
    (load_config_from_device c6_bufB).map ConfigRecord.ball_y
      = Except.ok BallFunction.cursorX := by decide

/-- C7 counterexample: encoding does not fail on out-of-range CPI.  With
the ball-CPI value 0 the encoder succeeds, and with 121 it succeeds too —
`struct.pack` accepts any unsigned byte 0..255 and the code performs no
range validation of its own. -/
theorem c7_counterexample :
    save_config_to_device (c7_rec 0) = Except.ok (c7_buf 0) ∧
    save_config_to_device (c7_rec 121) = Except.ok (c7_buf 121) := by decide

/-- C7 amended: the encoder itself validates nothing in [1,120]; CPI
values 0, 1, 120 and 121 all encode successfully, the raw value landing
in byte 7.  The only range enforcement is the CPI slider widget, whose
range 1..120 clamps 0 up to 1 and 121 down to 120 before a value can ever
reach the encoder from the GUI. -/
theorem c7_amended_no_encode_validation :
    save_config_to_device (c7_rec 0) = Except.ok (c7_buf 0) ∧
    save_config_to_device (c7_rec 1) = Except.ok (c7_buf 1) ∧
    save_config_to_device (c7_rec 120) = Except.ok (c7_buf 120) ∧
    save_config_to_device (c7_rec 121) = Except.ok (c7_buf 121) ∧
    slider_setValue 0 = 1 ∧
    slider_setValue 121 = 120 := by decide

/-- C8: the default record encodes to exactly the payload bytes
[3,1,0,0,0,0,0,1,1,0,0,0,0,0,0,0,0,0,0] followed by the little-endian
CRC-32 of bytes 1..18 (version through last shifted button), whose value
is 0xD262EA03, and decoding that exact buffer returns the default record
unchanged. -/
theorem c8_default_scenario :
    save_config_to_device default_record = Except.ok defaultEncodedBuf ∧
    defaultEncodedBuf
      = [3, 1, 0, 0, 0, 0, 0, 1, 1, 0, 0, 0, 0, 0, 0, 0, 0, 0, 0]
          ++ le32 (crc32 defaultPayload) ∧
    crc32 defaultPayload = 0xD262EA03 ∧
    load_config_from_device defaultEncodedBuf = Except.ok default_record := by decide

/-- C9: with ball X on Cursor X and ball Y on Cursor Y (inverted), the
encoder emits axis wire bytes 1 and 254 (0xFE, the two's complement of
the code -2) at offsets 3 and 4, and the loader maps wire byte 0xFE in a
ball-axis position back to Cursor Y (inverted), both through the lookup
table and through a full decode. -/
theorem c9_inverted_axis_codes :
    ballCode BallFunction.cursorX = 1 ∧
    ballCode BallFunction.cursorYInv = -2 ∧
    packb (-2) = Except.ok 254 ∧
    save_config_to_device c9_record = Except.ok c9_save_buf ∧
    c9_save_buf.get? 3 = some 1 ∧
    c9_save_buf.get? 4 = some 254 ∧
    load_ball 254 = Except.ok BallFunction.cursorYInv ∧
    (load_config_from_device c9_load_buf).map ConfigRecord.ball_x
      = Except.ok BallFunction.cursorYInv := by decide

/-- C10: every buffer the encoder produces is exactly 23 bytes (19 packed
bytes plus the 4-byte checksum), starts with the report id 3, and has 0
in its command byte (offset 2), whatever the record holds. -/
theorem c10_encoded_shape (r : ConfigRecord) (buf : List Nat)
    (h : save_config_to_device r = Except.ok buf) :
    buf.length = 23 ∧ buf.get? 0 = some 3 ∧ buf.get? 2 = some 0 := by
  rw [save_ok_shape h]
  exact ⟨rfl, rfl, rfl⟩

/-- Witness for C10 at the default record. -/
theorem c10_encoded_shape_witness :
    defaultEncodedBuf.length = 23 ∧
    defaultEncodedBuf.get? 0 = some 3 ∧
    defaultEncodedBuf.get? 2 = some 0 :=
  c10_encoded_shape default_record defaultEncodedBuf (by decide)
